import Mathlib

/-!
Verification of the JanMitra incident-reporting backend core:
the Case lifecycle state machine, the SLA auto-escalation sweep,
and the device-bound identity/session model.

Each definition below is a shallow embedding of a function or model from
the repository (file and symbol named in its doc comment).  Timestamps are
modelled as `Int` seconds; 24 hours is 86400 seconds.  Database rows are
modelled as Lean structures, querysets as lists or membership predicates.
-/

namespace Janmitra

/-- User roles (`authentication/models.py`, class `UserRole`).
`level_3` is the JANMITRA citizen role (`JANMITRA = 'level_3'`). -/
inductive Role where
| level_0
| level_1
| level_2
| level_2_captain
| level_3
deriving DecidableEq, Repr

/-- `User.is_level_0` property. -/
def Role.is_level_0 (r : Role) : Bool := r == Role.level_0

/-- `User.is_level_1` property. -/
def Role.is_level_1 (r : Role) : Bool := r == Role.level_1

/-- `User.is_level_2` property. -/
def Role.is_level_2 (r : Role) : Bool := r == Role.level_2

/-- `User.is_level_2_captain` property. -/
def Role.is_level_2_captain (r : Role) : Bool := r == Role.level_2_captain

/-- `User.is_janmitra` property (`role == UserRole.LEVEL_3`). -/
def Role.is_janmitra (r : Role) : Bool := r == Role.level_3

/-- `User.is_authority` property (`role in UserRole.AUTHORITY_ROLES`). -/
def Role.is_authority (r : Role) : Bool :=
  r == Role.level_0 || r == Role.level_1 || r == Role.level_2 || r == Role.level_2_captain

/-- Account status (`authentication/models.py`, class `UserStatus`). -/
inductive UserStatus where
| active
| suspended
| revoked
| pending
deriving DecidableEq, Repr

/-- Case lifecycle status (`reports/models.py`, class `CaseStatus`).
`open` is a Lean keyword, so the OPEN constructor is written `open_`. -/
inductive CaseStatus where
| open_
| solved
| rejected
| closed
deriving DecidableEq, Repr

/-- The mutable fields of a `Case` row (`reports/models.py`, class `Case`).
`current_level` is 2 (field officers), 1 (senior) or 0 (highest authority);
users are referenced by numeric id. -/
structure Case where
  current_level : Nat
  status : CaseStatus
  sla_deadline : Int
  solved_at : Option Int
  solved_by : Option Nat
  solution_notes : String
  rejected_at : Option Int
  rejected_by : Option Nat
  rejection_reason : String
  escalation_count : Nat
  last_escalated_at : Option Int
  is_deleted : Bool
deriving DecidableEq, Repr

/-- A `CaseStatusHistory` row (`reports/models.py`).
`changed_by = none` means a system (auto-escalation) action. -/
structure CaseStatusHistory where
  from_status : Option CaseStatus
  to_status : CaseStatus
  from_level : Option Nat
  to_level : Option Nat
  changed_by : Option Nat
  reason : String
  is_auto_escalation : Bool
deriving DecidableEq, Repr

/-- Membership predicate of `visible_cases_for_user(user)`
(`Janmitraapp/reports/models.py`, lines 1-11): which cases the returned
queryset contains for a user of the given role.  Note the captain branch
filters `current_level__gte=2`. -/
def visible_cases_for_user (r : Role) (c : Case) : Bool :=
  if c.is_deleted then false
  else if r.is_level_2 && !r.is_level_2_captain then c.current_level == 2
  else if r.is_level_2_captain then 2 ≤ c.current_level
  else if r.is_level_1 then c.current_level == 1
  else if r.is_level_0 then c.current_level == 0
  else false

/-- Membership predicate of `OpenCasesView.get_queryset`
(`Janmitraapp/reports/views.py`): JanMitra gets an empty queryset; the base
queryset keeps non-deleted OPEN cases; then the role branches filter by
level, with the captain branch using `current_level__lte=2`. -/
def open_cases_queryset (r : Role) (c : Case) : Bool :=
  if r.is_janmitra then false
  else if c.is_deleted || !(c.status == CaseStatus.open_) then false
  else if r.is_level_2 && !r.is_level_2_captain then c.current_level == 2
  else if r.is_level_2_captain then c.current_level ≤ 2
  else if r.is_level_1 then c.current_level == 1
  else if r.is_level_0 then c.current_level == 0
  else false

/-- Error outcomes of the case transition views and admin actions.
`not_open`, `already_at_highest_level`, `reason_required` and `not_found`
are the 400/404 responses of the views in `Janmitraapp/reports/views.py`;
`already_terminal` and `skipped` are the skip branches of the admin
actions and of the auto-escalation command.  The spec groups the
precondition failures under the name ConflictError. -/
inductive CaseError where
| not_found
| not_open
| already_at_highest_level
| reason_required
| already_terminal
| skipped
deriving DecidableEq, Repr

/-- A case together with its `CaseStatusHistory` rows, earliest first:
the unit of work every transition mutates. -/
structure CaseWorld where
  caseRec : Case
  history : List CaseStatusHistory
deriving DecidableEq, Repr

/-- One committed transition: the new case row plus exactly one appended
history row, in the same unit of work. -/
def commit (w : CaseWorld) (c : Case) (row : CaseStatusHistory) : CaseWorld :=
  { caseRec := c, history := w.history ++ [row] }

/-- Case creation on incident submission
(`IncidentBroadcastView.post`, `Janmitraapp/reports/views.py`):
level 2, status OPEN, SLA = now + 24h, one initial history row
(null → OPEN, null → 2, changed_by = submitter, "Initial submission"). -/
def createCase (submitter : Nat) (now : Int) : CaseWorld :=
  { caseRec :=
      { current_level := 2
        status := CaseStatus.open_
        sla_deadline := now + 86400
        solved_at := none
        solved_by := none
        solution_notes := ""
        rejected_at := none
        rejected_by := none
        rejection_reason := ""
        escalation_count := 0
        last_escalated_at := none
        is_deleted := false }
    history :=
      [{ from_status := none
         to_status := CaseStatus.open_
         from_level := none
         to_level := some 2
         changed_by := some submitter
         reason := "Initial submission"
         is_auto_escalation := false }] }

/-- `SolveCaseView.post` (`Janmitraapp/reports/views.py`): 404 when the
case is deleted (lookup filters `is_deleted=False`), 400 when not OPEN;
otherwise sets SOLVED with resolution fields and writes one history row
(OPEN → SOLVED, no level fields). -/
def solveCase (actor : Nat) (now : Int) (solution_notes : String) (w : CaseWorld) :
    Except CaseError CaseWorld :=
  if w.caseRec.is_deleted then Except.error CaseError.not_found
  else if !(w.caseRec.status == CaseStatus.open_) then Except.error CaseError.not_open
  else
    Except.ok (commit w
      { w.caseRec with
          status := CaseStatus.solved
          solved_at := some now
          solved_by := some actor
          solution_notes := solution_notes }
      { from_status := some w.caseRec.status
        to_status := CaseStatus.solved
        from_level := none
        to_level := none
        changed_by := some actor
        reason := solution_notes
        is_auto_escalation := false })

/-- `RejectCaseView.post` (`Janmitraapp/reports/views.py`): 404 when
deleted, 400 when not OPEN, 400 when the reason is empty; otherwise sets
REJECTED with rejection fields and one history row. -/
def rejectCase (actor : Nat) (now : Int) (reason : String) (w : CaseWorld) :
    Except CaseError CaseWorld :=
  if w.caseRec.is_deleted then Except.error CaseError.not_found
  else if !(w.caseRec.status == CaseStatus.open_) then Except.error CaseError.not_open
  else if reason == "" then Except.error CaseError.reason_required
  else
    Except.ok (commit w
      { w.caseRec with
          status := CaseStatus.rejected
          rejected_at := some now
          rejected_by := some actor
          rejection_reason := reason }
      { from_status := some w.caseRec.status
        to_status := CaseStatus.rejected
        from_level := none
        to_level := none
        changed_by := some actor
        reason := reason
        is_auto_escalation := false })

/-- `ForwardCaseView.post` (`Janmitraapp/reports/views.py`): 404 when
deleted, 400 when not OPEN, 400 when already at level 0; otherwise level
decreases by one, escalation count increments, SLA resets to now + 24h,
and one history row records the level change with status unchanged. -/
def forwardCase (actor : Nat) (now : Int) (reason : String) (w : CaseWorld) :
    Except CaseError CaseWorld :=
  if w.caseRec.is_deleted then Except.error CaseError.not_found
  else if !(w.caseRec.status == CaseStatus.open_) then Except.error CaseError.not_open
  else if w.caseRec.current_level ≤ 0 then Except.error CaseError.already_at_highest_level
  else
    Except.ok (commit w
      { w.caseRec with
          current_level := w.caseRec.current_level - 1
          escalation_count := w.caseRec.escalation_count + 1
          last_escalated_at := some now
          sla_deadline := now + 86400 }
      { from_status := some w.caseRec.status
        to_status := w.caseRec.status
        from_level := some w.caseRec.current_level
        to_level := some (w.caseRec.current_level - 1)
        changed_by := some actor
        reason := if reason == "" then "Forwarded to higher level" else reason
        is_auto_escalation := false })

/-- `CaseAdmin.force_escalate_case` (`Janmitraapp/reports/admin.py`),
restricted to one case of the selected queryset (the admin changelist
queryset excludes soft-deleted rows): skips cases that are not OPEN or
already at level 0; otherwise identical in effect to forward,
attributable to the admin actor. -/
def force_escalate_case (actor : Nat) (identifier : String) (now : Int) (w : CaseWorld) :
    Except CaseError CaseWorld :=
  if w.caseRec.is_deleted then Except.error CaseError.not_found
  else if !(w.caseRec.status == CaseStatus.open_) then Except.error CaseError.not_open
  else if w.caseRec.current_level == 0 then Except.error CaseError.already_at_highest_level
  else
    Except.ok (commit w
      { w.caseRec with
          current_level := w.caseRec.current_level - 1
          escalation_count := w.caseRec.escalation_count + 1
          last_escalated_at := some now
          sla_deadline := now + 86400 }
      { from_status := some w.caseRec.status
        to_status := w.caseRec.status
        from_level := some w.caseRec.current_level
        to_level := some (w.caseRec.current_level - 1)
        changed_by := some actor
        reason := "Admin force escalation by " ++ identifier
        is_auto_escalation := false })

/-- `CaseAdmin.force_close_case` (`Janmitraapp/reports/admin.py`): skips
cases already in a terminal state {SOLVED, REJECTED, CLOSED}; otherwise
sets CLOSED and writes one history row keeping the level. -/
def force_close_case (actor : Nat) (identifier : String) (w : CaseWorld) :
    Except CaseError CaseWorld :=
  if w.caseRec.is_deleted then Except.error CaseError.not_found
  else if w.caseRec.status == CaseStatus.solved || w.caseRec.status == CaseStatus.rejected
      || w.caseRec.status == CaseStatus.closed then
    Except.error CaseError.already_terminal
  else
    Except.ok (commit w
      { w.caseRec with status := CaseStatus.closed }
      { from_status := some w.caseRec.status
        to_status := CaseStatus.closed
        from_level := some w.caseRec.current_level
        to_level := some w.caseRec.current_level
        changed_by := some actor
        reason := "Admin force closed by " ++ identifier
        is_auto_escalation := false })

/-- Modelled from the spec: `Case.can_escalate` is called by
`auto_escalate_cases.py` but its definition is not under `src/`.
Per §4.3/§4.4 a case can be (auto-)escalated iff its status is OPEN and
its level is above 0. -/
def can_escalate (c : Case) : Bool :=
  c.status == CaseStatus.open_ && 0 < c.current_level

/-- Modelled from the spec: `Case.is_sla_expired` is called by
`auto_escalate_cases.py` but its definition is not under `src/`.  The
sweep query uses `sla_deadline__lt=now`, and the spec's re-verify step
checks "SLA still expired", i.e. `sla_deadline < now`. -/
def is_sla_expired (now : Int) (c : Case) : Bool :=
  c.sla_deadline < now

/-- Modelled from the spec: `Case.calculate_sla_deadline_for_level` is
called by `auto_escalate_cases.py` but its definition is not under
`src/`.  Per §4.3 every level's SLA window is 24 hours, so the fresh
deadline for the new level is now + 24h. -/
def calculate_sla_deadline_for_level (_level : Nat) (now : Int) : Int :=
  now + 86400

/-- The candidate query of `Command.handle` in
`backend/reports/management/commands/auto_escalate_cases.py`:
`Case.objects` (which excludes soft-deleted rows) filtered by
`status=OPEN, sla_deadline__lt=now`, excluding `current_level=0`. -/
def sweepQueryFilter (now : Int) (c : Case) : Bool :=
  !c.is_deleted && c.status == CaseStatus.open_ && c.sla_deadline < now
    && !(c.current_level == 0)

/-- `Command._escalate_case` (`auto_escalate_cases.py`): pick the next
level (2 → 1, 1 → 0, otherwise skip), re-check `can_escalate` and
`is_sla_expired`, re-verify under lock that status is still OPEN and the
level unchanged, then apply the escalation with `changed_by = none` and
`is_auto_escalation = true`. -/
def escalate_apply (now : Int) (old_level new_level : Nat) (c : Case) :
    Option (Case × CaseStatusHistory) :=
  if !(can_escalate c) then none
  else if !(is_sla_expired now c) then none
  else if !(c.status == CaseStatus.open_) then none
  else if !(c.current_level == old_level) then none
  else
    some
      ({ c with
          current_level := new_level
          escalation_count := c.escalation_count + 1
          last_escalated_at := some now
          sla_deadline := calculate_sla_deadline_for_level new_level now },
       { from_status := some CaseStatus.open_
         to_status := CaseStatus.open_
         from_level := some old_level
         to_level := some new_level
         changed_by := none
         reason := "SLA expired - auto-escalation"
         is_auto_escalation := true })

/-- Continuation of `Command._escalate_case`: next-level selection
(2 → 1, 1 → 0, otherwise skip). -/
def escalate_case_step (now : Int) (c : Case) : Option (Case × CaseStatusHistory) :=
  if c.current_level == 2 then escalate_apply now c.current_level 1 c
  else if c.current_level == 1 then escalate_apply now c.current_level 0 c
  else none

/-- The sweep's treatment of one case: cases outside the candidate query
are untouched; candidates go through `_escalate_case`, which may still
skip.  Returns the resulting case and the history row if escalated. -/
def sweepCase (now : Int) (c : Case) : Case × Option CaseStatusHistory :=
  if sweepQueryFilter now c then
    match escalate_case_step now c with
    | some (c2, row) => (c2, some row)
    | none => (c, none)
  else (c, none)

/-- `runAutoEscalationSweep(now)`: the final case states after one sweep
(`Command.handle` iterating `_escalate_case` over all cases; per-case
processing is independent, and errors in one case do not abort the
rest). -/
def runAutoEscalationSweep (now : Int) (cases : List Case) : List Case :=
  cases.map (fun c => (sweepCase now c).1)

/-- Number of cases the sweep escalates (the command's `escalated_count`). -/
def sweepEscalatedCount (now : Int) (cases : List Case) : Nat :=
  (cases.filter (fun c => (sweepCase now c).2.isSome)).length

/-- Auto-escalation of one case as a unit-of-work operation on a
`CaseWorld` (skips report `CaseError.skipped`). -/
def auto_escalate_one (now : Int) (w : CaseWorld) : Except CaseError CaseWorld :=
  match sweepCase now w.caseRec with
  | (c2, some row) => Except.ok (commit w c2 row)
  | (_, none) => Except.error CaseError.skipped

/-- The status-or-level-changing operations applicable to an existing
case (creation is `createCase`). -/
inductive CaseOp where
| solve (actor : Nat) (now : Int) (solution_notes : String)
| reject (actor : Nat) (now : Int) (reason : String)
| forward (actor : Nat) (now : Int) (reason : String)
| forceEscalate (actor : Nat) (identifier : String) (now : Int)
| forceClose (actor : Nat) (identifier : String)
| autoEscalate (now : Int)
deriving DecidableEq, Repr

/-- Dispatch one operation against a case's unit of work. -/
def runOp : CaseOp → CaseWorld → Except CaseError CaseWorld
  | CaseOp.solve a n notes, w => solveCase a n notes w
  | CaseOp.reject a n r, w => rejectCase a n r w
  | CaseOp.forward a n r, w => forwardCase a n r w
  | CaseOp.forceEscalate a idf n, w => force_escalate_case a idf n w
  | CaseOp.forceClose a idf, w => force_close_case a idf w
  | CaseOp.autoEscalate n, w => auto_escalate_one n w

/-- The state after attempting one operation: a failed precondition is a
no-op (the views return 4xx without mutating; the admin actions and the
sweep skip). -/
def stepOp (op : CaseOp) (w : CaseWorld) : CaseWorld :=
  match runOp op w with
  | Except.ok w2 => w2
  | Except.error _ => w

/-- Apply a sequence of operations. -/
def runOps : List CaseOp → CaseWorld → CaseWorld
  | [], w => w
  | op :: ops, w => runOps ops (stepOp op w)

/-- Count the operations of a sequence that succeed (each against the
state produced by its predecessors). -/
def successCount : List CaseOp → CaseWorld → Nat
  | [], _ => 0
  | op :: ops, w =>
    (if (runOp op w).isOk then 1 else 0) + successCount ops (stepOp op w)

/-- Which operations' history rows record the level fields: forward,
force-escalate, force-close and auto-escalation pass `from_level` and
`to_level` to `CaseStatusHistory.objects.create`, while the solve and
reject views omit them (the columns stay null). -/
def recordsLevels : CaseOp → Bool
  | CaseOp.solve _ _ _ => false
  | CaseOp.reject _ _ _ => false
  | CaseOp.forward _ _ _ => true
  | CaseOp.forceEscalate _ _ _ => true
  | CaseOp.forceClose _ _ => true
  | CaseOp.autoEscalate _ => true

/-- Ordering constraint between two history rows that both record a
level: the later row's `to_level` is at most the earlier one's. -/
def histLevelRel (h1 h2 : CaseStatusHistory) : Prop :=
  ∀ l1 l2, h1.to_level = some l1 → h2.to_level = some l2 → l2 ≤ l1

/-- Level invariant of a case's unit of work: every recorded `to_level`
bounds the case's current level from above, and recorded levels are
non-increasing along the history. -/
def levelInv (w : CaseWorld) : Prop :=
  (∀ h ∈ w.history, ∀ l, h.to_level = some l → w.caseRec.current_level ≤ l) ∧
  w.history.Pairwise histLevelRel

/-- A case already marked SOLVED (terminal), with its two history rows. -/
def solvedCaseExample : CaseWorld :=
  { caseRec :=
      { current_level := 2
        status := CaseStatus.solved
        sla_deadline := 86400
        solved_at := some 3600
        solved_by := some 7
        solution_notes := "fixed"
        rejected_at := none
        rejected_by := none
        rejection_reason := ""
        escalation_count := 0
        last_escalated_at := none
        is_deleted := false }
    history :=
      [{ from_status := none
         to_status := CaseStatus.open_
         from_level := none
         to_level := some 2
         changed_by := some 1
         reason := "Initial submission"
         is_auto_escalation := false },
       { from_status := some CaseStatus.open_
         to_status := CaseStatus.solved
         from_level := none
         to_level := none
         changed_by := some 7
         reason := "fixed"
         is_auto_escalation := false }] }

/-- An OPEN level-2 case whose SLA deadline (0) is already past. -/
def expiredCaseExample : Case :=
  { current_level := 2
    status := CaseStatus.open_
    sla_deadline := 0
    solved_at := none
    solved_by := none
    solution_notes := ""
    rejected_at := none
    rejected_by := none
    rejection_reason := ""
    escalation_count := 0
    last_escalated_at := none
    is_deleted := false }

/-- The visibility rule actually enforced by `visible_cases_for_user`:
a plain LEVEL_2 officer sees level 2 only, a LEVEL_2_CAPTAIN sees
`current_level >= 2` (so, among the valid levels 0..2, only level 2),
LEVEL_1 sees level 1, LEVEL_0 sees level 0, a JANMITRA citizen sees
nothing. -/
def visibleRule (r : Role) (lvl : Nat) : Prop :=
  match r with
  | Role.level_2 => lvl = 2
  | Role.level_2_captain => 2 ≤ lvl
  | Role.level_1 => lvl = 1
  | Role.level_0 => lvl = 0
  | Role.level_3 => False

/-- The visibility rule enforced by `OpenCasesView.get_queryset`, where the
captain branch is `current_level <= 2`. -/
def openCasesRule (r : Role) (lvl : Nat) : Prop :=
  match r with
  | Role.level_2 => lvl = 2
  | Role.level_2_captain => lvl ≤ 2
  | Role.level_1 => lvl = 1
  | Role.level_0 => lvl = 0
  | Role.level_3 => False

/-- A non-deleted OPEN case at level 1; under the claimed captain rule
(`current_level <= 2`) it would be visible to a LEVEL_2_CAPTAIN, but
`visible_cases_for_user` filters `current_level__gte=2` and excludes it. -/
def levelOneCase : Case :=
  { current_level := 1
    status := CaseStatus.open_
    sla_deadline := 86400
    solved_at := none
    solved_by := none
    solution_notes := ""
    rejected_at := none
    rejected_by := none
    rejection_reason := ""
    escalation_count := 1
    last_escalated_at := some 0
    is_deleted := false }

/-- The fields of a `User` row (`backend/authentication/models.py`)
relevant to authentication, permissions and revocation. -/
structure UserRec where
  id : Nat
  role : Role
  status : UserStatus
  is_active : Bool
  revoked_at : Option Int
  revoked_by : Option Nat
  revocation_reason : String
deriving DecidableEq, Repr

/-- `User.is_revoked` property (`status == UserStatus.REVOKED`). -/
def UserRec.is_revoked (u : UserRec) : Bool := u.status == UserStatus.revoked

/-- A `DeviceSession` row (`backend/authentication/models.py`).  The
device fingerprint is stored only as its SHA-256 hash. -/
structure DeviceSession where
  user : Nat
  device_fingerprint_hash : String
  is_active : Bool
  invalidated_at : Option Int
  invalidation_reason : String
deriving DecidableEq, Repr

/-- The bulk update `DeviceSession.objects.filter(user=u, is_active=True)
.update(is_active=False, invalidated_at=now, invalidation_reason=reason)`
used by `create_session` (reason NEW_DEVICE) and `User.revoke_access`
(reason ACCESS_REVOKED). -/
def invalidate_active_for (u : Nat) (now : Int) (reason : String)
    (ss : List DeviceSession) : List DeviceSession :=
  ss.map fun s =>
    if s.user == u && s.is_active then
      { s with is_active := false, invalidated_at := some now, invalidation_reason := reason }
    else s

/-- `DeviceSession.create_session` (`backend/authentication/models.py`):
invalidates all of the user's active sessions with reason NEW_DEVICE,
then inserts one new active session keyed by the hash of the device
fingerprint.  SHA-256 (`DeviceSession.hash_fingerprint`) is an external
primitive, modelled by the abstract function `hf`. -/
def create_session (hf : String → String) (u : Nat) (device_fingerprint : String)
    (now : Int) (ss : List DeviceSession) : List DeviceSession :=
  invalidate_active_for u now "NEW_DEVICE" ss ++
    [{ user := u
       device_fingerprint_hash := hf device_fingerprint
       is_active := true
       invalidated_at := none
       invalidation_reason := "" }]

/-- Number of active `DeviceSession` rows of a user. -/
def activeSessionCount (u : Nat) (ss : List DeviceSession) : Nat :=
  ss.countP fun s => s.user == u && s.is_active

/-- A sequence of `create_session` calls, each a `(user, fingerprint,
time)` triple, applied in order. -/
def runCreateSessions (hf : String → String) :
    List (Nat × String × Int) → List DeviceSession → List DeviceSession
  | [], ss => ss
  | (u, fp, t) :: rest, ss => runCreateSessions hf rest (create_session hf u fp t ss)

/-- `DeviceSession.verify_fingerprint`: compares the stored hash with the
hash of the provided fingerprint. -/
def verify_fingerprint (hf : String → String) (s : DeviceSession)
    (fingerprint : String) : Bool :=
  s.device_fingerprint_hash == hf fingerprint

/-- Machine-readable auth rejection codes raised by
`DeviceBoundJWTAuthentication` (`backend/authentication/backends.py`)
after structural token validation has succeeded. -/
inductive AuthError where
| access_revoked
| account_suspended
| account_inactive
| missing_device_fingerprint
| no_active_session
| device_mismatch
deriving DecidableEq, Repr

/-- `DeviceBoundJWTAuthentication._check_user_status`: revoked, then
suspended, then inactive. -/
def check_user_status (u : UserRec) : Option AuthError :=
  if u.is_revoked then some AuthError.access_revoked
  else if u.status == UserStatus.suspended then some AuthError.account_suspended
  else if !u.is_active then some AuthError.account_inactive
  else none

/-- `DeviceBoundJWTAuthentication._validate_device_binding`: the header
value (empty string when the header is absent), the lookup of the single
active session, and the fingerprint comparison. -/
def validate_device_binding (hf : String → String) (u : UserRec)
    (device_fingerprint : String) (ss : List DeviceSession) : Option AuthError :=
  if device_fingerprint == "" then some AuthError.missing_device_fingerprint
  else
    match ss.find? (fun s => s.user == u.id && s.is_active) with
    | none => some AuthError.no_active_session
    | some s =>
      if verify_fingerprint hf s device_fingerprint then none
      else some AuthError.device_mismatch

/-- `DeviceBoundJWTAuthentication.authenticate` after the standard JWT
step resolved the user: user-status checks run first; device binding is
validated only for JanMitra (anonymous citizen) identities. -/
def authenticate (hf : String → String) (u : UserRec) (device_fingerprint : String)
    (ss : List DeviceSession) : Except AuthError UserRec :=
  match check_user_status u with
  | some e => Except.error e
  | none =>
    if u.role.is_janmitra then
      match validate_device_binding hf u device_fingerprint ss with
      | some e => Except.error e
      | none => Except.ok u
    else Except.ok u

/-- `User.revoke_access` (`backend/authentication/models.py`): sets
status REVOKED, records the revocation metadata, clears `is_active`, and
deactivates every active session with reason ACCESS_REVOKED. -/
def revoke_access (target : UserRec) (revoked_by : Nat) (reason : String) (now : Int)
    (ss : List DeviceSession) : UserRec × List DeviceSession :=
  ({ target with
      status := UserStatus.revoked
      revoked_at := some now
      revoked_by := some revoked_by
      revocation_reason := reason
      is_active := false },
   invalidate_active_for target.id now "ACCESS_REVOKED" ss)

/-- Error outcomes of `RevokeUserView.post`. -/
inductive RevokeError where
| permission_denied
| reason_required
| already_revoked
deriving DecidableEq, Repr

/-- `IsLevel1.has_permission` (`backend/authentication/permissions.py`):
refuses revoked or inactive actors, then requires the LEVEL_1 role. -/
def IsLevel1_check (u : UserRec) : Bool :=
  if u.is_revoked || !u.is_active then false else u.role.is_level_1

/-- `CanRevokeUser.has_object_permission`: no self-revocation, no
revocation of another LEVEL_1 (peer revocation forbidden), and the actor
must be LEVEL_1. -/
def CanRevokeUser_object (actor target : UserRec) : Bool :=
  if target.id == actor.id then false
  else if target.role.is_level_1 then false
  else actor.role.is_level_1

/-- `RevokeUserView.post` (`Janmitraapp/authentication/views.py`):
permission classes (`IsLevel1` and `CanRevokeUser.has_permission`, i.e.
`is_level_1`) run first, then a non-empty reason is required (`reason`
here is the already-stripped request value,
`request.data.get('reason', '').strip()`), then the object-level
permission, then the already-revoked guard, and finally
`revoke_access`. -/
def revokeUser (actor target : UserRec) (reason : String) (now : Int)
    (ss : List DeviceSession) : Except RevokeError (UserRec × List DeviceSession) :=
  if !(IsLevel1_check actor && actor.role.is_level_1) then
    Except.error RevokeError.permission_denied
  else if reason == "" then Except.error RevokeError.reason_required
  else if !(CanRevokeUser_object actor target) then
    Except.error RevokeError.permission_denied
  else if target.is_revoked then Except.error RevokeError.already_revoked
  else Except.ok (revoke_access target actor.id reason now ss)

/-- An `InviteCode` row (`backend/authentication/models.py`). -/
structure InviteCode where
  code : String
  issued_by : Nat
  is_used : Bool
  used_at : Option Int
  used_by : Option Nat
  expires_at : Int
  max_uses : Nat
  use_count : Nat
  is_deleted : Bool
deriving DecidableEq, Repr

/-- `InviteCode.is_valid`: invalid when soft-deleted, when
`use_count >= max_uses`, or when `now > expires_at`; valid otherwise. -/
def InviteCode.is_valid (now : Int) (ic : InviteCode) : Bool :=
  if ic.is_deleted then false
  else if ic.max_uses ≤ ic.use_count then false
  else if ic.expires_at < now then false
  else true

/-- `InviteCode.use`: increments the use count, records user and time,
and marks the code used when the new count reaches `max_uses`. -/
def InviteCode.use (now : Int) (u : Nat) (ic : InviteCode) : InviteCode :=
  { ic with
      use_count := ic.use_count + 1
      used_at := some now
      used_by := some u
      is_used := if ic.max_uses ≤ ic.use_count + 1 then true else ic.is_used }

/-- Failure outcome of using an invalid invite code. -/
inductive InviteError where
| invalid_invite
deriving DecidableEq, Repr

/-- `useInvite`: `JanMitraRegistrationSerializer.validate_invite_code`
rejects a code that is not `is_valid` (expired, exhausted or soft
deleted), and registration then calls `invite.use(user)`. -/
def useInvite (now : Int) (u : Nat) (ic : InviteCode) : Except InviteError InviteCode :=
  if !(InviteCode.is_valid now ic) then Except.error InviteError.invalid_invite
  else Except.ok (InviteCode.use now u ic)

/-- `IsLevel1OrLevel2.has_permission`: refuses revoked or inactive
users, then requires any authority role. -/
def IsLevel1OrLevel2_check (u : UserRec) : Bool :=
  if u.is_revoked || !u.is_active then false else u.role.is_authority

/-- Endpoint-level outcome: permission refusal or a case precondition
failure. -/
inductive ApiError where
| forbidden
| conflict (e : CaseError)
deriving DecidableEq, Repr

/-- The solve endpoint: `IsLevel1OrLevel2` permission around
`SolveCaseView.post`.  No comparison between the caller's role and the
case's `current_level` occurs anywhere. -/
def solveCaseEndpoint (u : UserRec) (now : Int) (solution_notes : String)
    (w : CaseWorld) : Except ApiError CaseWorld :=
  if !(IsLevel1OrLevel2_check u) then Except.error ApiError.forbidden
  else
    match solveCase u.id now solution_notes w with
    | Except.ok w2 => Except.ok w2
    | Except.error e => Except.error (ApiError.conflict e)

/-- The reject endpoint: `IsLevel1OrLevel2` around `RejectCaseView.post`. -/
def rejectCaseEndpoint (u : UserRec) (now : Int) (reason : String)
    (w : CaseWorld) : Except ApiError CaseWorld :=
  if !(IsLevel1OrLevel2_check u) then Except.error ApiError.forbidden
  else
    match rejectCase u.id now reason w with
    | Except.ok w2 => Except.ok w2
    | Except.error e => Except.error (ApiError.conflict e)

/-- The forward endpoint: `IsLevel1OrLevel2` around `ForwardCaseView.post`. -/
def forwardCaseEndpoint (u : UserRec) (now : Int) (reason : String)
    (w : CaseWorld) : Except ApiError CaseWorld :=
  if !(IsLevel1OrLevel2_check u) then Except.error ApiError.forbidden
  else
    match forwardCase u.id now reason w with
    | Except.ok w2 => Except.ok w2
    | Except.error e => Except.error (ApiError.conflict e)

/-- An active LEVEL_0 admin. -/
def level0Admin : UserRec :=
  { id := 2, role := Role.level_0, status := UserStatus.active, is_active := true,
    revoked_at := none, revoked_by := none, revocation_reason := "" }

/-- An active LEVEL_1 senior authority. -/
def level1Authority : UserRec :=
  { id := 4, role := Role.level_1, status := UserStatus.active, is_active := true,
    revoked_at := none, revoked_by := none, revocation_reason := "" }

/-- An active LEVEL_2 field officer. -/
def level2Officer : UserRec :=
  { id := 5, role := Role.level_2, status := UserStatus.active, is_active := true,
    revoked_at := none, revoked_by := none, revocation_reason := "" }

/-- A JanMitra citizen whose access has been revoked. -/
def revokedCitizen : UserRec :=
  { id := 3, role := Role.level_3, status := UserStatus.revoked, is_active := false,
    revoked_at := some 10, revoked_by := some 4, revocation_reason := "abuse" }

/-- An invite code expiring exactly at instant 0, single-use, unused. -/
def boundaryInvite : InviteCode :=
  { code := "JM-0000-0000-0000", issued_by := 4, is_used := false, used_at := none,
    used_by := none, expires_at := 0, max_uses := 1, use_count := 0, is_deleted := false }

/-- C1 counterexample: the claimed captain rule — a LEVEL_2_CAPTAIN sees
every case with `current_level <= 2` — is false for
`visible_cases_for_user`: the non-deleted level-1 case `levelOneCase` is
not in the captain's queryset, because the code filters
`current_level__gte=2`, not `__lte`. -/
theorem visible_cases_captain_counterexample :
    ¬ (∀ c : Case, c.is_deleted = false →
        (visible_cases_for_user Role.level_2_captain c = true ↔ c.current_level ≤ 2)) := by
  intro h
  have h1 := (h levelOneCase rfl).2 (by decide)
  exact absurd h1 (by decide)

/-- C1 (amended): visibility partition of the case engine.
For `visible_cases_for_user` (the helper used by `CaseListView` and
`CaseDetailView`), membership holds iff the case is not deleted and
`visibleRule` matches: LEVEL_2 sees exactly level 2, LEVEL_2_CAPTAIN sees
exactly `current_level >= 2` (hence, for the valid levels 0..2, only
level 2 — not levels 1 and 0), LEVEL_1 exactly level 1, LEVEL_0 exactly
level 0, and a JANMITRA citizen always gets the empty set.  For
`OpenCasesView.get_queryset` the same partition holds on non-deleted OPEN
cases except that the captain branch is `current_level <= 2`.  Third
conjunct: among cases with a valid level (≤ 2), a captain's
`visible_cases_for_user` visibility is exactly `current_level = 2`. -/
theorem visibility_partition (r : Role) (c : Case) :
    (visible_cases_for_user r c = true ↔
      (c.is_deleted = false ∧ visibleRule r c.current_level)) ∧
    (open_cases_queryset r c = true ↔
      (c.is_deleted = false ∧ c.status = CaseStatus.open_ ∧ openCasesRule r c.current_level)) ∧
    (c.current_level ≤ 2 →
      (visible_cases_for_user Role.level_2_captain c = true ↔
        (c.is_deleted = false ∧ c.current_level = 2))) := by
  refine ⟨?_, ?_, ?_⟩
  · cases r <;>
      simp [visible_cases_for_user, visibleRule, Role.is_level_0, Role.is_level_1,
        Role.is_level_2, Role.is_level_2_captain]
  · cases r <;>
      simp [open_cases_queryset, openCasesRule, Role.is_level_0, Role.is_level_1,
        Role.is_level_2, Role.is_level_2_captain, Role.is_janmitra, and_assoc]
  · intro hle
    simp [visible_cases_for_user, Role.is_level_2, Role.is_level_2_captain]
    omega

/-- C1 witness: the captain characterization applied to the level-1
example case. -/
theorem visibility_partition_witness :
    visible_cases_for_user Role.level_2_captain levelOneCase = true ↔
      (levelOneCase.is_deleted = false ∧ levelOneCase.current_level = 2) :=
  (visibility_partition Role.level_2_captain levelOneCase).2.2 (by decide)

/-- Unfolding of the sweep's candidate query. -/
theorem sweepQueryFilter_spec (now : Int) (c : Case) :
    sweepQueryFilter now c = true ↔
      (c.is_deleted = false ∧ c.status = CaseStatus.open_ ∧ c.sla_deadline < now ∧
        c.current_level ≠ 0) := by
  simp [sweepQueryFilter, and_assoc]

/-- What a successful `escalate_apply` certifies and produces. -/
theorem escalate_apply_spec (now : Int) (ol nl : Nat) (c c2 : Case)
    (row : CaseStatusHistory) (h : escalate_apply now ol nl c = some (c2, row)) :
    c.status = CaseStatus.open_ ∧ 0 < c.current_level ∧ c.sla_deadline < now ∧
    c2 = { c with
            current_level := nl
            escalation_count := c.escalation_count + 1
            last_escalated_at := some now
            sla_deadline := now + 86400 } ∧
    row = { from_status := some CaseStatus.open_
            to_status := CaseStatus.open_
            from_level := some ol
            to_level := some nl
            changed_by := none
            reason := "SLA expired - auto-escalation"
            is_auto_escalation := true } := by
  unfold escalate_apply at h
  split_ifs at h with hc hs hst hlv
  simp only [Bool.not_eq_true, Bool.not_eq_false'] at hc hs
  simp only [can_escalate, Bool.and_eq_true, beq_iff_eq, decide_eq_true_eq] at hc
  simp only [is_sla_expired, decide_eq_true_eq] at hs
  simp only [Option.some.injEq, Prod.mk.injEq] at h
  refine ⟨hc.1, hc.2, hs, ?_, h.2.symm⟩
  rw [← h.1]
  simp [calculate_sla_deadline_for_level]

/-- What a sweep escalation certifies and produces: the case was an OPEN,
non-deleted candidate with expired SLA at a level above 0, and the result
drops the level by exactly one, increments the escalation count, stamps
`last_escalated_at`, resets the SLA to now + 24h, and records one history
row with `changed_by = none` and `is_auto_escalation = true`. -/
theorem sweepCase_spec (now : Int) (c c2 : Case) (row : CaseStatusHistory)
    (h : sweepCase now c = (c2, some row)) :
    c.is_deleted = false ∧ c.status = CaseStatus.open_ ∧ c.sla_deadline < now ∧
    0 < c.current_level ∧
    c2 = { c with
            current_level := c.current_level - 1
            escalation_count := c.escalation_count + 1
            last_escalated_at := some now
            sla_deadline := now + 86400 } ∧
    row = { from_status := some CaseStatus.open_
            to_status := CaseStatus.open_
            from_level := some c.current_level
            to_level := some (c.current_level - 1)
            changed_by := none
            reason := "SLA expired - auto-escalation"
            is_auto_escalation := true } := by
  unfold sweepCase at h
  split_ifs at h with hq
  · have hdel : c.is_deleted = false := ((sweepQueryFilter_spec now c).1 hq).1
    cases hstep : escalate_case_step now c with
    | none =>
      rw [hstep] at h
      simp at h
    | some p =>
      obtain ⟨a, b⟩ := p
      rw [hstep] at h
      simp only [Prod.mk.injEq, Option.some.injEq] at h
      obtain ⟨hac, hbr⟩ := h
      unfold escalate_case_step at hstep
      split_ifs at hstep with h2 h1
      · have h2' : c.current_level = 2 := by simpa using h2
        obtain ⟨ho, hp, hsl, hc2, hrow⟩ := escalate_apply_spec now c.current_level 1 c a b hstep
        subst hac hbr
        refine ⟨hdel, ho, hsl, hp, ?_, ?_⟩
        · rw [hc2, h2']
        · rw [hrow, h2']
      · have h1' : c.current_level = 1 := by simpa using h1
        obtain ⟨ho, hp, hsl, hc2, hrow⟩ := escalate_apply_spec now c.current_level 0 c a b hstep
        subst hac hbr
        refine ⟨hdel, ho, hsl, hp, ?_, ?_⟩
        · rw [hc2, h1']
        · rw [hrow, h1']
  · simp at h

/-- Cases outside the candidate query are untouched by the sweep. -/
theorem sweepCase_of_filter_false (now : Int) (c : Case)
    (h : sweepQueryFilter now c = false) : sweepCase now c = (c, none) := by
  simp [sweepCase, h]

/-- Candidates that `_escalate_case` skips are untouched by the sweep. -/
theorem sweepCase_of_step_none (now : Int) (c : Case)
    (hq : sweepQueryFilter now c = true) (h : escalate_case_step now c = none) :
    sweepCase now c = (c, none) := by
  simp [sweepCase, hq, h]

/-- A case the sweep has just escalated is no longer a candidate at the
same instant, so a second pass leaves it (and every untouched case)
alone. -/
theorem sweepCase_idem (now : Int) (c : Case) :
    sweepCase now (sweepCase now c).1 = ((sweepCase now c).1, none) := by
  cases hsw : (sweepCase now c).2 with
  | none =>
    by_cases hq : sweepQueryFilter now c = true
    · cases hstep : escalate_case_step now c with
      | none =>
        have hcc : sweepCase now c = (c, none) := sweepCase_of_step_none now c hq hstep
        rw [hcc]
        exact sweepCase_of_step_none now c hq hstep
      | some p =>
        have : (sweepCase now c).2 = some p.2 := by
          simp [sweepCase, hq, hstep]
        rw [hsw] at this
        simp at this
    · have hq' : sweepQueryFilter now c = false := by
        simpa using hq
      have hcc : sweepCase now c = (c, none) := sweepCase_of_filter_false now c hq'
      rw [hcc]
      exact sweepCase_of_filter_false now c hq'
  | some row =>
    have h : sweepCase now c = ((sweepCase now c).1, some row) := by
      rw [← hsw]
    obtain ⟨-, -, -, -, hc2, -⟩ := sweepCase_spec now c (sweepCase now c).1 row h
    have hsla : (sweepCase now c).1.sla_deadline = now + 86400 := by
      rw [hc2]
    have hq2 : sweepQueryFilter now (sweepCase now c).1 = false := by
      rcases hb : sweepQueryFilter now (sweepCase now c).1
      · rfl
      · obtain ⟨-, -, hlt, -⟩ := (sweepQueryFilter_spec now _).1 hb
        rw [hsla] at hlt
        omega
    exact sweepCase_of_filter_false now _ hq2

/-- C2: the auto-escalation sweep.  For any case matching the candidate
query (OPEN, non-deleted, `sla_deadline < now`, level ≠ 0) at a valid
level (≤ 2), the sweep escalates it by exactly one level with the
escalation count incremented, `last_escalated_at = now`, a fresh SLA
deadline of now + 24h, and one history row with `changed_by = none`
(actor null) and `is_auto_escalation = true`; and running the sweep twice
in immediate succession at the same instant yields the same final case
states, the second run escalating zero cases. -/
theorem auto_escalation_sweep (now : Int) (c : Case)
    (hq : sweepQueryFilter now c = true) (hle : c.current_level ≤ 2) :
    sweepCase now c =
      ({ c with
          current_level := c.current_level - 1
          escalation_count := c.escalation_count + 1
          last_escalated_at := some now
          sla_deadline := now + 86400 },
       some
        { from_status := some CaseStatus.open_
          to_status := CaseStatus.open_
          from_level := some c.current_level
          to_level := some (c.current_level - 1)
          changed_by := none
          reason := "SLA expired - auto-escalation"
          is_auto_escalation := true }) ∧
    (∀ cases : List Case,
      runAutoEscalationSweep now (runAutoEscalationSweep now cases) =
        runAutoEscalationSweep now cases ∧
      sweepEscalatedCount now (runAutoEscalationSweep now cases) = 0) := by
  constructor
  · obtain ⟨hdel, hopen, hsla, hne0⟩ := (sweepQueryFilter_spec now c).1 hq
    have hcase : c.current_level = 1 ∨ c.current_level = 2 := by omega
    have hce : can_escalate c = true := by
      simp [can_escalate, hopen]
      omega
    have hse : is_sla_expired now c = true := by
      simp [is_sla_expired, hsla]
    rcases hcase with h1 | h2
    · simp [sweepCase, hq, escalate_case_step, escalate_apply, h1, hce, hse, hopen,
        calculate_sla_deadline_for_level]
    · simp [sweepCase, hq, escalate_case_step, escalate_apply, h2, hce, hse, hopen,
        calculate_sla_deadline_for_level]
  · intro cases
    constructor
    · unfold runAutoEscalationSweep
      rw [List.map_map]
      apply List.map_congr_left
      intro a _
      have := congrArg Prod.fst (sweepCase_idem now a)
      simpa using this
    · unfold sweepEscalatedCount runAutoEscalationSweep
      rw [List.length_eq_zero]
      rw [List.filter_eq_nil_iff]
      intro a ha
      obtain ⟨b, -, hb⟩ := List.mem_map.1 ha
      have := congrArg Prod.snd (sweepCase_idem now b)
      rw [hb] at this
      simp [this]

/-- C2 witness: the sweep at time 100 on the expired OPEN level-2 case. -/
theorem auto_escalation_sweep_witness :
    sweepCase 100 expiredCaseExample =
      ({ expiredCaseExample with
          current_level := expiredCaseExample.current_level - 1
          escalation_count := expiredCaseExample.escalation_count + 1
          last_escalated_at := some 100
          sla_deadline := 100 + 86400 },
       some
        { from_status := some CaseStatus.open_
          to_status := CaseStatus.open_
          from_level := some expiredCaseExample.current_level
          to_level := some (expiredCaseExample.current_level - 1)
          changed_by := none
          reason := "SLA expired - auto-escalation"
          is_auto_escalation := true }) :=
  (auto_escalation_sweep 100 expiredCaseExample (by decide) (by decide)).1

/-- Shape of every successful transition: it appends exactly one history
row, whose `to_level` is either absent or equal to the case's new level;
the level never increases; and when it changes, the case was OPEN at a
level above 0 and the level dropped by exactly one. -/
theorem runOp_ok_shape (op : CaseOp) (w w' : CaseWorld) (h : runOp op w = Except.ok w') :
    (∃ row, w'.history = w.history ++ [row] ∧
      (row.to_level = none ∨ row.to_level = some w'.caseRec.current_level)) ∧
    w'.caseRec.current_level ≤ w.caseRec.current_level ∧
    (w'.caseRec.current_level ≠ w.caseRec.current_level →
      w.caseRec.status = CaseStatus.open_ ∧ 0 < w.caseRec.current_level ∧
      w'.caseRec.current_level = w.caseRec.current_level - 1) := by
  cases op with
  | solve a n notes =>
    simp only [runOp] at h
    unfold solveCase at h
    split_ifs at h with h1 h2
    injection h with h
    subst h
    exact ⟨⟨_, rfl, Or.inl rfl⟩, Nat.le_refl _, fun hne => absurd rfl hne⟩
  | reject a n r =>
    simp only [runOp] at h
    unfold rejectCase at h
    split_ifs at h with h1 h2 h3
    injection h with h
    subst h
    exact ⟨⟨_, rfl, Or.inl rfl⟩, Nat.le_refl _, fun hne => absurd rfl hne⟩
  | forward a n r =>
    simp only [runOp] at h
    unfold forwardCase at h
    split_ifs at h with h1 h2 h3 h4 <;>
      (injection h with h; subst h;
       exact ⟨⟨_, rfl, Or.inr rfl⟩, Nat.sub_le _ _,
         fun _ => ⟨by simpa using h2, by omega, rfl⟩⟩)
  | forceEscalate a idf n =>
    simp only [runOp] at h
    unfold force_escalate_case at h
    split_ifs at h with h1 h2 h3
    injection h with h
    subst h
    refine ⟨⟨_, rfl, Or.inr rfl⟩, Nat.sub_le _ _, fun _ => ⟨?_, ?_, rfl⟩⟩
    · simpa using h2
    · simp only [beq_iff_eq] at h3
      omega
  | forceClose a idf =>
    simp only [runOp] at h
    unfold force_close_case at h
    split_ifs at h with h1 h2
    injection h with h
    subst h
    exact ⟨⟨_, rfl, Or.inr rfl⟩, Nat.le_refl _, fun hne => absurd rfl hne⟩
  | autoEscalate n =>
    simp only [runOp] at h
    unfold auto_escalate_one at h
    split at h
    next c2 row heq =>
      injection h with h
      subst h
      obtain ⟨-, hopen, -, hpos, hc2, hrow⟩ := sweepCase_spec n w.caseRec c2 row heq
      subst hc2 hrow
      exact ⟨⟨_, rfl, Or.inr rfl⟩, Nat.sub_le _ _, fun _ => ⟨hopen, hpos, rfl⟩⟩
    next => simp at h

/-- Each successful operation grows the history by exactly one row;
failed preconditions leave it untouched. -/
theorem runOps_history_length (ops : List CaseOp) (w : CaseWorld) :
    (runOps ops w).history.length = w.history.length + successCount ops w := by
  induction ops generalizing w with
  | nil => simp [runOps, successCount]
  | cons op ops ih =>
    cases hop : runOp op w with
    | ok w2 =>
      have hstep : stepOp op w = w2 := by simp [stepOp, hop]
      have hlen : w2.history.length = w.history.length + 1 := by
        obtain ⟨⟨row, hrow, -⟩, -, -⟩ := runOp_ok_shape op w w2 hop
        rw [hrow]
        simp
      rw [runOps, successCount, hstep, hop]
      rw [ih w2, hlen]
      simp [Except.isOk, Except.toBool]
      omega
    | error e =>
      have hstep : stepOp op w = w := by simp [stepOp, hop]
      rw [runOps, successCount, hstep, hop]
      rw [ih w]
      simp [Except.isOk, Except.toBool]

/-- Content of the single history row a successful operation appends:
its `from_status`/`to_status` are the case's before/after status, and its
level fields are the before/after levels for the level-recording
operations but null for solve and reject. -/
theorem runOp_ok_row (op : CaseOp) (w w2 : CaseWorld) (h : runOp op w = Except.ok w2) :
    ∃ row, w2.history = w.history ++ [row] ∧
      row.from_status = some w.caseRec.status ∧
      row.to_status = w2.caseRec.status ∧
      (if recordsLevels op = true then
        row.from_level = some w.caseRec.current_level ∧
        row.to_level = some w2.caseRec.current_level
      else row.from_level = none ∧ row.to_level = none) := by
  cases op with
  | solve a n notes =>
    simp only [runOp] at h
    unfold solveCase at h
    split_ifs at h with h1 h2
    injection h with h
    subst h
    exact ⟨_, rfl, rfl, rfl, by simp [recordsLevels, commit]⟩
  | reject a n r =>
    simp only [runOp] at h
    unfold rejectCase at h
    split_ifs at h with h1 h2 h3
    injection h with h
    subst h
    exact ⟨_, rfl, rfl, rfl, by simp [recordsLevels, commit]⟩
  | forward a n r =>
    simp only [runOp] at h
    unfold forwardCase at h
    split_ifs at h with h1 h2 h3 h4 <;>
      (injection h with h; subst h;
       exact ⟨_, rfl, rfl, rfl, by simp [recordsLevels, commit]⟩)
  | forceEscalate a idf n =>
    simp only [runOp] at h
    unfold force_escalate_case at h
    split_ifs at h with h1 h2 h3
    injection h with h
    subst h
    exact ⟨_, rfl, rfl, rfl, by simp [recordsLevels, commit]⟩
  | forceClose a idf =>
    simp only [runOp] at h
    unfold force_close_case at h
    split_ifs at h with h1 h2
    injection h with h
    subst h
    exact ⟨_, rfl, rfl, rfl, by simp [recordsLevels, commit]⟩
  | autoEscalate n =>
    simp only [runOp] at h
    unfold auto_escalate_one at h
    split at h
    next c2 row heq =>
      injection h with h
      subst h
      obtain ⟨-, hopen, -, -, hc2, hrow⟩ := sweepCase_spec n w.caseRec c2 row heq
      subst hc2 hrow
      refine ⟨_, rfl, ?_, ?_, by simp [recordsLevels, commit]⟩
      · rw [hopen]
      · simp [commit, hopen]
    next => simp at h

/-- C6 counterexample: not every history row captures the before/after
level — the row the solve view appends carries no level fields at all
(`views.py` passes no `from_level`/`to_level` for solve and reject), as
shown by solving a freshly created case. -/
theorem solve_history_row_counterexample :
    ¬ (∀ (op : CaseOp) (w w2 : CaseWorld), runOp op w = Except.ok w2 →
        ∀ row, w2.history.getLast? = some row →
          ∃ l1 l2, row.from_level = some l1 ∧ row.to_level = some l2) := by
  intro h
  have hx := h (CaseOp.solve 7 5 "done") (createCase 1 0)
      (stepOp (CaseOp.solve 7 5 "done") (createCase 1 0)) (by rfl)
      { from_status := some CaseStatus.open_
        to_status := CaseStatus.solved
        from_level := none
        to_level := none
        changed_by := some 7
        reason := "done"
        is_auto_escalation := false } (by rfl)
  obtain ⟨l1, l2, hl1, -⟩ := hx
  cases hl1

/-- C6 (amended): history pairing and completeness.  Creation writes its
single (null → OPEN, null → 2) history row in the same unit of work;
after any operation sequence the number of rows is 1 (create) plus the
number of successful transitions; and every successful operation appends
exactly one row whose `from_status`/`to_status` are the case's
before/after status, with the before/after levels recorded by forward,
force-escalate, force-close and auto-escalation, while solve and reject
rows leave both level fields null. -/
theorem history_pairing (ops : List CaseOp) (submitter : Nat) (now : Int) :
    (runOps ops (createCase submitter now)).history.length =
      1 + successCount ops (createCase submitter now) ∧
    (createCase submitter now).history =
      [{ from_status := none
         to_status := CaseStatus.open_
         from_level := none
         to_level := some 2
         changed_by := some submitter
         reason := "Initial submission"
         is_auto_escalation := false }] ∧
    (∀ (op : CaseOp) (w w2 : CaseWorld), runOp op w = Except.ok w2 →
      w2.history.dropLast = w.history ∧
      ∀ row, w2.history.getLast? = some row →
        row.from_status = some w.caseRec.status ∧
        row.to_status = w2.caseRec.status ∧
        (if recordsLevels op = true then
          row.from_level = some w.caseRec.current_level ∧
          row.to_level = some w2.caseRec.current_level
        else row.from_level = none ∧ row.to_level = none)) := by
  refine ⟨?_, rfl, ?_⟩
  · have h := runOps_history_length ops (createCase submitter now)
    have hone : (createCase submitter now).history.length = 1 := rfl
    rw [hone] at h
    omega
  · intro op w w2 h
    obtain ⟨row, hcat, h1, h2, h3⟩ := runOp_ok_row op w w2 h
    rw [hcat]
    refine ⟨List.dropLast_concat, ?_⟩
    intro row2 hlast
    rw [List.getLast?_concat] at hlast
    injection hlast with hlast
    subst hlast
    exact ⟨h1, h2, h3⟩

/-- C6 witness: one forward on a fresh case — the row count grows to 2
and the appended row leaves the earlier history intact. -/
theorem history_pairing_witness :
    (runOps [CaseOp.forward 7 5 "go"] (createCase 1 0)).history.length =
      1 + successCount [CaseOp.forward 7 5 "go"] (createCase 1 0) ∧
    (stepOp (CaseOp.forward 7 5 "go") (createCase 1 0)).history.dropLast =
      (createCase 1 0).history :=
  ⟨(history_pairing [CaseOp.forward 7 5 "go"] 1 0).1,
   ((history_pairing [] 1 0).2.2 (CaseOp.forward 7 5 "go") (createCase 1 0)
     (stepOp (CaseOp.forward 7 5 "go") (createCase 1 0)) (by rfl)).1⟩

/-- The initial unit of work satisfies the level invariant. -/
theorem createCase_levelInv (s : Nat) (n : Int) : levelInv (createCase s n) := by
  constructor
  · intro hrow hmem l hl
    simp only [createCase, List.mem_singleton] at hmem
    subst hmem
    simp only [createCase] at hl ⊢
    injection hl with hl
    omega
  · simp [createCase]

/-- Every successful operation preserves the level invariant. -/
theorem runOp_preserves_levelInv (op : CaseOp) (w w' : CaseWorld)
    (h : runOp op w = Except.ok w') (inv : levelInv w) : levelInv w' := by
  obtain ⟨⟨row, hhist, hrow⟩, hle, -⟩ := runOp_ok_shape op w w' h
  obtain ⟨inv1, inv2⟩ := inv
  constructor
  · intro hr hmem l hl
    rw [hhist] at hmem
    rcases List.mem_append.1 hmem with hm | hm
    · exact Nat.le_trans hle (inv1 hr hm l hl)
    · simp only [List.mem_singleton] at hm
      subst hm
      rcases hrow with h0 | h0
      · rw [h0] at hl
        cases hl
      · rw [h0] at hl
        injection hl with hl
        omega
  · rw [hhist, List.pairwise_append]
    refine ⟨inv2, by simp, ?_⟩
    intro a ha b hb
    simp only [List.mem_singleton] at hb
    subst hb
    intro l1 l2 ha1 hb2
    rcases hrow with h0 | h0
    · rw [h0] at hb2
      cases hb2
    · rw [h0] at hb2
      injection hb2 with hb2
      have := inv1 a ha l1 ha1
      omega

/-- The level invariant holds along any operation sequence. -/
theorem runOps_levelInv (ops : List CaseOp) (w : CaseWorld) (inv : levelInv w) :
    levelInv (runOps ops w) := by
  induction ops generalizing w with
  | nil => simpa [runOps] using inv
  | cons op ops ih =>
    have hstep : levelInv (stepOp op w) := by
      cases hop : runOp op w with
      | ok w2 =>
        have he : stepOp op w = w2 := by simp [stepOp, hop]
        rw [he]
        exact runOp_preserves_levelInv op w w2 hop inv
      | error e =>
        have he : stepOp op w = w := by simp [stepOp, hop]
        rw [he]
        exact inv
    simpa [runOps] using ih _ hstep

/-- C7: level monotonicity.  A successful operation never increases
`current_level`; when the level changes the case was OPEN at a level
above 0 and moved down by exactly one; and consequently, in the history
of any case built by `createCase` followed by any operation sequence,
any two rows that record levels have non-increasing `to_level`. -/
theorem level_monotonicity (op : CaseOp) (w w' : CaseWorld)
    (h : runOp op w = Except.ok w') :
    (w'.caseRec.current_level ≤ w.caseRec.current_level ∧
      (w'.caseRec.current_level ≠ w.caseRec.current_level →
        w.caseRec.status = CaseStatus.open_ ∧ 0 < w.caseRec.current_level ∧
        w'.caseRec.current_level = w.caseRec.current_level - 1)) ∧
    ∀ (ops : List CaseOp) (submitter : Nat) (creation : Int),
      ((runOps ops (createCase submitter creation)).history).Pairwise histLevelRel := by
  refine ⟨⟨(runOp_ok_shape op w w' h).2.1, (runOp_ok_shape op w w' h).2.2⟩, ?_⟩
  intro ops s n
  exact (runOps_levelInv ops _ (createCase_levelInv s n)).2

/-- C7 witness: solving a freshly created case leaves its level at 2. -/
theorem level_monotonicity_witness :
    (stepOp (CaseOp.solve 3 10 "done") (createCase 1 0)).caseRec.current_level ≤
      (createCase 1 0).caseRec.current_level :=
  ((level_monotonicity (CaseOp.solve 3 10 "done") (createCase 1 0)
    (stepOp (CaseOp.solve 3 10 "done") (createCase 1 0)) (by rfl)).1).1

/-- C5: terminal stability.  Once a case's status is SOLVED, REJECTED or
CLOSED, solve, reject and forward all answer "Case is not open", the
admin force-close skips it as already terminal, and every operation —
including force-escalate and the auto-escalation sweep — leaves its unit
of work completely unchanged. -/
theorem terminal_stability (w : CaseWorld)
    (hdel : w.caseRec.is_deleted = false)
    (hterm : w.caseRec.status = CaseStatus.solved ∨ w.caseRec.status = CaseStatus.rejected ∨
      w.caseRec.status = CaseStatus.closed) :
    (∀ a n notes, solveCase a n notes w = Except.error CaseError.not_open) ∧
    (∀ a n r, rejectCase a n r w = Except.error CaseError.not_open) ∧
    (∀ a n r, forwardCase a n r w = Except.error CaseError.not_open) ∧
    (∀ a idf, force_close_case a idf w = Except.error CaseError.already_terminal) ∧
    (∀ op, stepOp op w = w) := by
  have hstat : (w.caseRec.status == CaseStatus.open_) = false := by
    rcases hterm with h | h | h <;> simp [h]
  refine ⟨?_, ?_, ?_, ?_, ?_⟩
  · intro a n notes
    simp [solveCase, hdel, hstat]
  · intro a n r
    simp [rejectCase, hdel, hstat]
  · intro a n r
    simp [forwardCase, hdel, hstat]
  · intro a idf
    rcases hterm with h | h | h <;> simp [force_close_case, hdel, h]
  · intro op
    cases op with
    | solve a n notes => simp [stepOp, runOp, solveCase, hdel, hstat]
    | reject a n r => simp [stepOp, runOp, rejectCase, hdel, hstat]
    | forward a n r => simp [stepOp, runOp, forwardCase, hdel, hstat]
    | forceEscalate a idf n => simp [stepOp, runOp, force_escalate_case, hdel, hstat]
    | forceClose a idf =>
      rcases hterm with h | h | h <;> simp [stepOp, runOp, force_close_case, hdel, h]
    | autoEscalate n =>
      have hq : sweepQueryFilter n w.caseRec = false := by
        simp [sweepQueryFilter, hstat]
      simp [stepOp, runOp, auto_escalate_one, sweepCase_of_filter_false n w.caseRec hq]

/-- C5 witness: re-solving and force-closing the already-solved example
case fail without touching it. -/
theorem terminal_stability_witness :
    solveCase 9 50 "again" solvedCaseExample = Except.error CaseError.not_open ∧
    force_close_case 9 "admin" solvedCaseExample = Except.error CaseError.already_terminal ∧
    stepOp (CaseOp.forward 9 50 "push") solvedCaseExample = solvedCaseExample :=
  ⟨(terminal_stability solvedCaseExample rfl (Or.inl rfl)).1 9 50 "again",
   (terminal_stability solvedCaseExample rfl (Or.inl rfl)).2.2.2.1 9 "admin",
   (terminal_stability solvedCaseExample rfl (Or.inl rfl)).2.2.2.2 (CaseOp.forward 9 50 "push")⟩

/-- Deactivating a user's sessions leaves them with zero active rows. -/
theorem activeSessionCount_invalidate (u : Nat) (now : Int) (reason : String)
    (ss : List DeviceSession) :
    activeSessionCount u (invalidate_active_for u now reason ss) = 0 := by
  unfold activeSessionCount invalidate_active_for
  rw [List.countP_map, List.countP_eq_zero]
  intro s hs
  simp only [Function.comp_apply]
  by_cases h : (s.user == u && s.is_active) = true
  · rw [if_pos h]
    simp
  · rw [if_neg h]
    exact h

/-- After `create_session` for a user, that user has exactly one active
session. -/
theorem activeSessionCount_create_self (hf : String → String) (u : Nat) (fp : String)
    (t : Int) (ss : List DeviceSession) :
    activeSessionCount u (create_session hf u fp t ss) = 1 := by
  have h1 := activeSessionCount_invalidate u t "NEW_DEVICE" ss
  unfold activeSessionCount at h1 ⊢
  unfold create_session
  rw [List.countP_append, h1]
  simp [List.countP_cons]

/-- `create_session` for one user does not change another user's active
session count. -/
theorem activeSessionCount_create_other (hf : String → String) {u v : Nat}
    (hne : v ≠ u) (fp : String) (t : Int) (ss : List DeviceSession) :
    activeSessionCount u (create_session hf v fp t ss) = activeSessionCount u ss := by
  unfold create_session activeSessionCount invalidate_active_for
  rw [List.countP_append, List.countP_map]
  have hz : List.countP (fun s => s.user == u && s.is_active)
      [({ user := v, device_fingerprint_hash := hf fp, is_active := true,
          invalidated_at := none, invalidation_reason := "" } : DeviceSession)] = 0 := by
    simp [List.countP_cons, hne]
  rw [hz, Nat.add_zero]
  apply List.countP_congr
  intro s hs
  simp only [Function.comp_apply]
  by_cases h : (s.user == v && s.is_active) = true
  · have huser : s.user = v := by
      simp at h
      exact h.1
    have hact : s.is_active = true := by
      simp at h
      exact h.2
    rw [if_pos h]
    simp [huser, hact, hne]
  · rw [if_neg h]

/-- Once some `create_session` call in a sequence targets the user (or
the user already has exactly one active session), every later state has
exactly one active session for that user. -/
theorem runCreateSessions_singleton (hf : String → String) (u : Nat) :
    ∀ (calls : List (Nat × String × Int)) (ss : List DeviceSession),
      ((∃ c ∈ calls, c.1 = u) ∨ activeSessionCount u ss = 1) →
      activeSessionCount u (runCreateSessions hf calls ss) = 1 := by
  intro calls
  induction calls with
  | nil =>
    intro ss h
    rcases h with ⟨c, hc, -⟩ | h
    · exact absurd hc (List.not_mem_nil c)
    · simpa [runCreateSessions] using h
  | cons c rest ih =>
    obtain ⟨v, fp, t⟩ := c
    intro ss h
    by_cases hv : v = u
    · subst hv
      exact ih _ (Or.inr (activeSessionCount_create_self hf v fp t ss))
    · refine ih _ ?_
      rcases h with ⟨c2, hc2, hcu⟩ | h1
      · rcases List.mem_cons.1 hc2 with rfl | hmem
        · exact absurd hcu hv
        · exact Or.inl ⟨c2, hmem, hcu⟩
      · right
        rw [activeSessionCount_create_other hf hv fp t ss]
        exact h1

/-- C3: session singularity.  After any sequence of `create_session`
calls at least one of which targets user `u`, exactly one DeviceSession
row of `u` is active — whatever the initial session table was.  Moreover
a `create_session` call for `u` appends one new active session whose
stored hash is the hash of the device fingerprint, and turns every
previously active session of `u` into an inactive row with invalidation
reason NEW_DEVICE. -/
theorem session_singularity (hf : String → String) (u : Nat)
    (calls : List (Nat × String × Int)) (s0 : List DeviceSession)
    (hcall : ∃ c ∈ calls, c.1 = u) :
    activeSessionCount u (runCreateSessions hf calls s0) = 1 ∧
    (∀ fp t ss,
      ((create_session hf u fp t ss).getLast? =
        some { user := u, device_fingerprint_hash := hf fp, is_active := true,
               invalidated_at := none, invalidation_reason := "" }) ∧
      ∀ s ∈ ss, s.user = u → s.is_active = true →
        { s with is_active := false, invalidated_at := some t,
                 invalidation_reason := "NEW_DEVICE" } ∈ create_session hf u fp t ss) := by
  refine ⟨runCreateSessions_singleton hf u calls s0 (Or.inl hcall), ?_⟩
  intro fp t ss
  constructor
  · unfold create_session
    rw [List.getLast?_concat]
  · intro s hs hu ha
    unfold create_session invalidate_active_for
    apply List.mem_append_left
    apply List.mem_map.2
    exact ⟨s, hs, by simp [hu, ha]⟩

/-- C3 witness: one registration call for user 1 on an empty table. -/
theorem session_singularity_witness :
    activeSessionCount 1 (runCreateSessions id [(1, "fpA", 5)] []) = 1 :=
  (session_singularity id 1 [(1, "fpA", 5)] []
    ⟨(1, "fpA", 5), by simp, rfl⟩).1

/-- C4: a revoked user is rejected with the `access_revoked` code on any
structurally valid bearer token, whatever the device-fingerprint header
(present, absent or matching) and whatever sessions exist — the
user-status checks run before any device-binding check. -/
theorem revoked_user_rejected (hf : String → String) (u : UserRec) (fp : String)
    (ss : List DeviceSession) (hrev : u.status = UserStatus.revoked) :
    authenticate hf u fp ss = Except.error AuthError.access_revoked := by
  simp [authenticate, check_user_status, UserRec.is_revoked, hrev]

/-- C4 witness: the revoked citizen is rejected both with and without a
matching fingerprint header. -/
theorem revoked_user_rejected_witness :
    authenticate id revokedCitizen "" [] = Except.error AuthError.access_revoked ∧
    authenticate id revokedCitizen "fpA"
        [{ user := 3, device_fingerprint_hash := "fpA", is_active := true,
           invalidated_at := none, invalidation_reason := "" }] =
      Except.error AuthError.access_revoked :=
  ⟨revoked_user_rejected id revokedCitizen "" [] rfl,
   revoked_user_rejected id revokedCitizen "fpA" _ rfl⟩

/-- C8: revocation.  `revokeUser` is refused with PermissionDenied when
the actor is not LEVEL_1 (the role `permissions.py` treats as the top,
revocation-wielding authority), and — on a well-formed request — also
when the target itself is LEVEL_1 (peer revocation forbidden).  On
success the target's status becomes REVOKED with `is_active` cleared and
the actor recorded, every previously active session of the target is
returned deactivated with invalidation reason ACCESS_REVOKED, and no
session of the target remains active. -/
theorem revoke_user_rules (actor target : UserRec) (reason : String) (now : Int)
    (ss : List DeviceSession) :
    (actor.role ≠ Role.level_1 →
      revokeUser actor target reason now ss = Except.error RevokeError.permission_denied) ∧
    (reason ≠ "" → target.role = Role.level_1 →
      revokeUser actor target reason now ss = Except.error RevokeError.permission_denied) ∧
    (∀ t2 ss2, revokeUser actor target reason now ss = Except.ok (t2, ss2) →
      t2.status = UserStatus.revoked ∧ t2.is_active = false ∧
      t2.revoked_by = some actor.id ∧ t2.revocation_reason = reason ∧
      (∀ s ∈ ss, s.user = target.id → s.is_active = true →
        { s with is_active := false, invalidated_at := some now,
                 invalidation_reason := "ACCESS_REVOKED" } ∈ ss2) ∧
      (∀ s ∈ ss2, s.user = target.id → s.is_active = false)) := by
  refine ⟨?_, ?_, ?_⟩
  · intro hrole
    have : actor.role.is_level_1 = false := by
      simp [Role.is_level_1, hrole]
    simp [revokeUser, this]
  · intro hr htar
    have htar2 : target.role.is_level_1 = true := by
      simp [Role.is_level_1, htar]
    have hobj : CanRevokeUser_object actor target = false := by
      simp [CanRevokeUser_object, htar2]
    unfold revokeUser
    split_ifs with p1 p2 p3 p4
    · rfl
    · exact absurd (by simpa using p2) hr
    · rfl
    · simp [hobj] at p3
    · simp [hobj] at p3
  · intro t2 ss2 h
    unfold revokeUser at h
    split_ifs at h with p1 p2 p3 p4
    injection h with h
    unfold revoke_access at h
    simp only [Prod.mk.injEq] at h
    obtain ⟨ht, hs⟩ := h
    subst ht
    refine ⟨rfl, rfl, rfl, rfl, ?_, ?_⟩
    · intro s hsmem hu ha
      rw [← hs]
      unfold invalidate_active_for
      apply List.mem_map.2
      exact ⟨s, hsmem, by simp [hu, ha]⟩
    · intro s2 hs2 hu2
      rw [← hs] at hs2
      unfold invalidate_active_for at hs2
      obtain ⟨s, hsmem, hfs⟩ := List.mem_map.1 hs2
      by_cases hcond : (s.user == target.id && s.is_active) = true
      · rw [if_pos hcond] at hfs
        rw [← hfs]
      · rw [if_neg hcond] at hfs
        subst hfs
        simp only [Bool.and_eq_true, beq_iff_eq, not_and] at hcond
        rcases hb : s.is_active
        · rfl
        · exact absurd hb (by simpa using hcond hu2)

/-- C8 witness: a LEVEL_2 officer may not revoke, a LEVEL_1 peer may not
be revoked, and a successful revocation of the citizen leaves him
REVOKED. -/
theorem revoke_user_rules_witness :
    revokeUser level2Officer revokedCitizen "abuse" 5 [] =
      Except.error RevokeError.permission_denied ∧
    revokeUser level1Authority level1Authority "abuse" 5 [] =
      Except.error RevokeError.permission_denied :=
  ⟨(revoke_user_rules level2Officer revokedCitizen "abuse" 5 []).1 (by decide),
   (revoke_user_rules level1Authority level1Authority "abuse" 5 []).2.1
     (by decide) (by decide)⟩

/-- C9 counterexample: the claimed validity rule — valid iff not deleted,
`use_count < max_uses` and `now < expires_at` — is false: the code tests
`now > expires_at`, so `boundaryInvite`, whose `expires_at` equals the
current instant 0, is still valid although `0 < 0` fails. -/
theorem invite_expiry_counterexample :
    ¬ (∀ (now : Int) (ic : InviteCode), InviteCode.is_valid now ic = true ↔
        (ic.is_deleted = false ∧ ic.use_count < ic.max_uses ∧ now < ic.expires_at)) := by
  intro h
  have hv := (h 0 boundaryInvite).1 (by decide)
  exact absurd hv.2.2 (by decide)

/-- C9 (amended): an invite code is valid iff it is not soft-deleted,
`use_count < max_uses` and `now ≤ expires_at` (a code whose `expires_at`
equals the current instant is still valid, since the code tests
`now > expires_at`).  `useInvite` fails with InvalidInvite exactly on
invalid codes and otherwise applies `use`, which increments `use_count`
and sets `is_used` exactly when the new count reaches `max_uses` (an
already-set flag stays set). -/
theorem invite_validity (now : Int) (u : Nat) (ic : InviteCode) :
    (InviteCode.is_valid now ic = true ↔
      (ic.is_deleted = false ∧ ic.use_count < ic.max_uses ∧ now ≤ ic.expires_at)) ∧
    (InviteCode.use now u ic).use_count = ic.use_count + 1 ∧
    (InviteCode.use now u ic).is_used =
      (ic.is_used || decide (ic.max_uses ≤ ic.use_count + 1)) ∧
    (ic.is_used = false →
      ((InviteCode.use now u ic).is_used = true ↔ ic.max_uses ≤ ic.use_count + 1)) ∧
    (InviteCode.is_valid now ic = false →
      useInvite now u ic = Except.error InviteError.invalid_invite) ∧
    (InviteCode.is_valid now ic = true →
      useInvite now u ic = Except.ok (InviteCode.use now u ic)) := by
  refine ⟨?_, rfl, ?_, ?_, ?_, ?_⟩
  · unfold InviteCode.is_valid
    split_ifs with h1 h2 h3
    · simp [h1]
    · constructor
      · intro hh
        exact absurd hh (by simp)
      · rintro ⟨-, hcnt, -⟩
        exact absurd hcnt (by omega)
    · constructor
      · intro hh
        exact absurd hh (by simp)
      · rintro ⟨-, -, hle⟩
        exact absurd hle (by omega)
    · constructor
      · intro _
        exact ⟨by simpa using h1, by omega, by omega⟩
      · intro _
        rfl
  · show (if ic.max_uses ≤ ic.use_count + 1 then true else ic.is_used) = _
    by_cases h : ic.max_uses ≤ ic.use_count + 1
    · simp [h]
    · simp [h]
  · intro hu
    show (if ic.max_uses ≤ ic.use_count + 1 then true else ic.is_used) = true ↔ _
    by_cases h : ic.max_uses ≤ ic.use_count + 1
    · simp [h]
    · simp [h, hu]
  · intro h
    simp [useInvite, h]
  · intro h
    simp [useInvite, h]

/-- C9 witness: the boundary code is accepted and used at instant 0. -/
theorem invite_validity_witness :
    InviteCode.is_valid 0 boundaryInvite = true ∧
    useInvite 0 9 boundaryInvite = Except.ok (InviteCode.use 0 9 boundaryInvite) :=
  ⟨by decide, (invite_validity 0 9 boundaryInvite).2.2.2.2.2 (by decide)⟩

/-- C10: the transition endpoints are not level-gated.  For any caller
who passes `IsLevel1OrLevel2` (active, unrevoked, any of the four
authority roles) and any non-deleted OPEN case — at any `current_level`,
matching the caller's level or not — solve succeeds, reject succeeds
whenever its reason is non-empty, and forward succeeds whenever the
level is above 0. -/
theorem endpoints_not_level_gated (u : UserRec) (now : Int) (w : CaseWorld)
    (hauth : u.role.is_authority = true) (hrev : u.is_revoked = false)
    (hact : u.is_active = true) (hdel : w.caseRec.is_deleted = false)
    (hopen : w.caseRec.status = CaseStatus.open_) :
    (∀ notes, (solveCaseEndpoint u now notes w).isOk = true) ∧
    (∀ r, r ≠ "" → (rejectCaseEndpoint u now r w).isOk = true) ∧
    (0 < w.caseRec.current_level →
      ∀ r, (forwardCaseEndpoint u now r w).isOk = true) := by
  have hperm : IsLevel1OrLevel2_check u = true := by
    simp [IsLevel1OrLevel2_check, hrev, hact, hauth]
  refine ⟨?_, ?_, ?_⟩
  · intro notes
    simp [solveCaseEndpoint, hperm, solveCase, hdel, hopen, Except.isOk, Except.toBool]
  · intro r hr
    simp [rejectCaseEndpoint, hperm, rejectCase, hdel, hopen, hr,
      Except.isOk, Except.toBool]
  · intro hlvl r
    have hnle : ¬ (w.caseRec.current_level ≤ 0) := by omega
    simp [forwardCaseEndpoint, hperm, forwardCase, hdel, hopen, hnle,
      Except.isOk, Except.toBool]

/-- C10 witness: a LEVEL_0 admin solves a freshly created level-2 case —
a role whose read-side visibility is level 0 acting on a level-2 case. -/
theorem endpoints_not_level_gated_witness :
    (solveCaseEndpoint level0Admin 50 "done" (createCase 1 0)).isOk = true :=
  (endpoints_not_level_gated level0Admin 50 (createCase 1 0)
    (by decide) (by decide) (by decide) (by decide) (by decide)).1 "done"

end Janmitra
